import Mathlib

/-!
Shallow embedding of `src/PyGnuplot.py` (class `gp`).

Conventions of the embedding:
* Queue contents are modelled as `List String`, front of the list = oldest line,
  exactly as `queue.Queue.queue` is indexed in the Python source.
* Lines delivered by `readline` keep their trailing `"\n"` (the source never
  strips it: `enqueue_std` does `queue.put(line)` verbatim, and every
  comparison in the source — the sentinel wait in `c`, the caret regex in
  `a` — expects the terminator to be present).
* The two reader threads are modelled by explicit `newOut`/`newErr`
  parameters: the lines they enqueue while a blocking `c(command)` call is
  in progress.  The busy-wait of `c` itself is modelled over an explicit
  trace of stdout-queue snapshots (`cWait`).
* Writing to the child's stdin is modelled by appending the written string
  to `stdinLog`; the `stdin.flush()` call is modelled by `stdinFlushes`.
* A raised `GnuplotException` is `AResult.err msg` carrying the exception
  message; a normal return is `AResult.ok lines`.
-/

namespace PyGnuplot

/-- The sentinel marker for a tag: `COMMAND_SEQUENCE_ENDED-<timestamp>`. -/
def sentinel (tag : Nat) : String :=
  "COMMAND_SEQUENCE_ENDED-" ++ toString tag

/-- The sentinel line as it appears in the stdout queue: the marker with the
trailing newline, exactly the string the wait loop of `gp.c` compares the
queue tail against. -/
def sentinelLine (tag : Nat) : String :=
  sentinel tag ++ "\n"

/-- The exact string `gp.c` (line 121) writes to the child's stdin: the
command text, a newline, the print-redirection instruction, and a print
instruction emitting the sentinel marker, each newline-terminated. -/
def cPayload (commands : String) (tag : Nat) : String :=
  commands ++ "\n" ++ "set print \"-\"\n" ++ "print \"" ++ sentinel tag ++ "\"\n"

/-- State of a `gp` session: the two output queues, the `outIndex` cursor,
the log of strings written to the child's stdin, the number of
`stdin.flush()` calls, and whether the child process is alive. -/
structure Session where
  qOut : List String
  qErr : List String
  outIndex : Nat
  stdinLog : List String
  stdinFlushes : Nat
  alive : Bool
deriving DecidableEq

/-- The write-and-flush part of `gp.c` (lines 121-122): a single write of
`cPayload`, followed by `stdin.flush()`. -/
def c_send (s : Session) (commands : String) (tag : Nat) : Session :=
  { s with stdinLog := s.stdinLog ++ [cPayload commands tag],
           stdinFlushes := s.stdinFlushes + 1 }

/-- Exit condition of the busy-wait loop in `gp.c` (line 125): the loop
`while len(q) == 0 or not q[-1] == marker: pass` exits exactly when the
queue is nonempty and its last element is the sentinel line. -/
def cWaitExit (tag : Nat) (q : List String) : Bool :=
  !(q.length == 0) && decide (q.getLast? = some (sentinelLine tag))

/-- The busy-wait loop of `gp.c` over a trace of successive stdout-queue
snapshots: returns the first snapshot satisfying the exit condition. -/
def cWait (tag : Nat) : List (List String) → Option (List String)
  | [] => none
  | q :: qs => if cWaitExit tag q then some q else cWait tag qs

/-- `gp.c` with `block=True`: write the framed payload, flush, then
busy-wait on the stdout queue until the sentinel line is its last element.
Returns `none` when the trace never satisfies the exit condition (the loop
never terminates); otherwise the session as observed when the loop exits. -/
def c_block (s : Session) (commands : String) (tag : Nat)
    (trace : List (List String)) : Option Session :=
  let s1 := c_send s commands tag
  match cWait tag trace with
  | some q => some { s1 with qOut := q }
  | none => none

/-- `gp.r` with the default `vtype=str` (lines 129-150): drain the selected
queue completely (every element is a `str`, so `vtype is not type(line)` is
false and each line is appended unchanged), then set `outIndex = 0`.
Returns the drained lines and the new session state. -/
def r (s : Session) (stderrFlag : Bool) : List String × Session :=
  if stderrFlag then
    (s.qErr, { s with qErr := [], outIndex := 0 })
  else
    (s.qOut, { s with qOut := [], outIndex := 0 })

/-- `gp.flush_queue` (line 300): `self.r(stderr=stderr)`, result discarded. -/
def flush_queue (s : Session) (stderrFlag : Bool) : Session :=
  (r s stderrFlag).2

/-- `gp.flush_all` (lines 295-297): flush stderr, then stdout. -/
def flush_all (s : Session) : Session :=
  flush_queue (flush_queue s true) false

/-- Skip leading spaces and tabs, the `[ \t]*` part of the caret regex. -/
def skipSpTab : List Char → List Char
  | [] => []
  | ch :: rest => if ch = ' ' || ch = '\t' then skipSpTab rest else ch :: rest

/-- The caret test of `gp.a` (line 170):
`re.match(r"[ \t]*\^[ \t]*\n", line)` — the pattern must match a prefix of
the line: optional spaces/tabs, one caret, optional spaces/tabs, a newline. -/
def caretMatch (line : String) : Bool :=
  match skipSpTab line.data with
  | ch :: rest =>
      if ch = '^' then
        match skipSpTab rest with
        | c2 :: _ => c2 = '\n'
        | [] => false
      else false
  | [] => false

/-- Is `ch` one of `[0-9]`. -/
def digitChar (ch : Char) : Bool :=
  '0' ≤ ch && ch ≤ '9'

/-- Drop `p` from the front of `cs`; `none` when `p` is not a prefix. -/
def dropPrefixChars : List Char → List Char → Option (List Char)
  | [], cs => some cs
  | _ :: _, [] => none
  | p :: ps, ch :: cs => if p = ch then dropPrefixChars ps cs else none

/-- The sentinel filter of `gp.a` (line 182):
`re.match(r"^COMMAND_SEQUENCE_ENDED\-[0-9]+", line)` — the line starts with
`COMMAND_SEQUENCE_ENDED-` followed by at least one digit. -/
def sentinelFilterMatch (line : String) : Bool :=
  match dropPrefixChars "COMMAND_SEQUENCE_ENDED-".data line.data with
  | some (ch :: _) => digitChar ch
  | _ => false

/-- Python list slicing `xs[k:]` for a possibly negative `k`: a negative
start counts from the end, clamped to 0. -/
def pySliceFrom (xs : List String) (k : Int) : List String :=
  if k < 0 then xs.drop ((k + xs.length).toNat) else xs.drop k.toNat

/-- The blank-line filter of `gp.a` (line 172): keep lines different from
`""` and from `"\n"`. -/
def pyNotBlank (line : String) : Bool :=
  !(line == "") && !(line == "\n")

/-- The error scan loop of `gp.a` (lines 169-170): the first index `i` in
`range(start, stop)` whose queue entry matches the caret pattern. -/
def findCaret (q : List String) (start stop : Nat) : Option Nat :=
  (List.range' start (stop - start)).find? (fun i => caretMatch (q.getD i ""))

/-- Outcome of `gp.a`: a normal return or a raised `GnuplotException`
carrying its message. -/
inductive AResult where
  | ok (lines : List String)
  | err (msg : String)
deriving DecidableEq

/-- Body of `gp.a` (lines 153-183), parameterised by the window start the
code reads into `startIndex`.  `newOut`/`newErr` are the lines the reader
threads enqueue during the blocking `c(command)` call. -/
def a_core (startIndex : Nat) (s : Session) (command : String) (tag : Nat)
    (newOut newErr : List String) (stderrFlag : Bool) : AResult × Session :=
  let s1 := c_send s command tag
  let s1 := { s1 with qOut := s1.qOut ++ newOut, qErr := s1.qErr ++ newErr }
  let endIndex := s1.qErr.length
  let s2 := { s1 with outIndex := endIndex }
  match findCaret s2.qErr startIndex endIndex with
  | some i =>
      let drained := r s2 true
      let cleanErrorLines := (pySliceFrom drained.1 ((i : Int) - 1)).filter pyNotBlank
      let error := String.join cleanErrorLines
      (AResult.err ("\n" ++ error), flush_all drained.2)
  | none =>
      let drained := r s2 stderrFlag
      if drained.1.length = 0 then
        (AResult.err "Empty Response", drained.2)
      else
        (AResult.ok (drained.1.filter (fun l => !(sentinelFilterMatch l))), drained.2)

/-- `gp.a` as in the source: the scan window starts at `self.outIndex`
(line 164: `startIndex = self.outIndex`). -/
def a (s : Session) (command : String) (tag : Nat)
    (newOut newErr : List String) (stderrFlag : Bool) : AResult × Session :=
  a_core s.outIndex s command tag newOut newErr stderrFlag

/-- Modelled from the spec: §4.4 step 1 says "Record the current stderr
queue length as the window start"; this variant of `a` uses the stderr
queue length at entry instead of the `outIndex` cursor.  Used only to
compare the spec's wording against the source's `a`. -/
def a_specStart (s : Session) (command : String) (tag : Nat)
    (newOut newErr : List String) (stderrFlag : Bool) : AResult × Session :=
  a_core s.qErr.length s command tag newOut newErr stderrFlag

/-- Modelled from the spec: §4.5 says the reconstructed error text is the
concatenation of the drained window from the line immediately preceding the
caret line (`max(i-1, 0)` per §4.4 step 4) through the end, blank lines
removed.  `Nat` subtraction makes `i - 1` exactly `max(i-1, 0)`. -/
def specErrMsg (errorLines : List String) (i : Nat) : String :=
  String.join ((errorLines.drop (i - 1)).filter pyNotBlank)

/-- The loop of `gp.enqueue_std` (lines 107-108):
`for line in iter(out.readline, ''): queue.put(line)` — each `readline`
result is put on the queue verbatim, stopping at the first `""` (EOF). -/
def enqueue_loop : List String → List String → List String
  | [], q => q
  | line :: rest, q => if line = "" then q else enqueue_loop rest (q ++ [line])

/-- `gp.enqueue_std` (lines 102-109): run the loop, then `out.close()`.
The stream is modelled as the list of successive `readline` results; the
`Bool` records that the stream handle was closed. -/
def enqueue_std (stream : List String) (queue : List String) : List String × Bool :=
  (enqueue_loop stream queue, true)

/-- Strip one trailing newline from a line, if present. -/
def stripLineTerm (line : String) : String :=
  match line.data.getLast? with
  | some ch => if ch = '\n' then String.mk line.data.dropLast else line
  | none => line

/-- Modelled from the spec: §4.1 says each line is pushed "stripped of line
terminator"; this variant of `enqueue_std` strips the terminator before
enqueueing.  Used only to compare the spec's wording against the source. -/
def enqueue_std_spec (stream : List String) (queue : List String) :
    List String × Bool :=
  (queue ++ (stream.takeWhile (fun l => l ≠ "")).map stripLineTerm, true)

/-- Parameter names of `def a(self, command, vtype=str, stderr=True)`
(line 153), excluding `self`. -/
def aParamNames : List String := ["command", "vtype", "stderr"]

/-- Keyword arguments used at the call `self.a('exit', block=False)` inside
`gp.quit` (line 344). -/
def quitCallKeywords : List String := ["block"]

/-- Outcome of `gp.quit`: a `TypeError` from a keyword argument that does
not match `a`'s signature, a propagated `GnuplotException`, or a normal
return. -/
inductive QuitResult where
  | typeError (kw : String)
  | raised (msg : String)
  | ok (lines : List String)
deriving DecidableEq

/-- `gp.quit` (lines 343-346): evaluate `self.a('exit', block=False)`;
Python raises `TypeError` at the call if a keyword does not name a
parameter of `a`, before `a`'s body or `self.p.kill()` can run.  Otherwise
the answer is returned after killing the child process. -/
def quit (s : Session) (tag : Nat) (newOut newErr : List String) :
    QuitResult × Session :=
  match quitCallKeywords.find? (fun kw => !(aParamNames.contains kw)) with
  | some kw => (QuitResult.typeError kw, s)
  | none =>
      let call := a s "exit" tag newOut newErr true
      match call.1 with
      | AResult.err m => (QuitResult.raised m, call.2)
      | AResult.ok ls => (QuitResult.ok ls, { call.2 with alive := false })

/-! ### Helper lemmas -/

/-- An engine-error message (a newline followed by the reconstructed text)
is never the literal `"Empty Response"` message. -/
lemma newline_append_ne_emptyResponse (e : String) :
    "\n" ++ e ≠ "Empty Response" := by
  intro h
  have h2 : ("\n" ++ e).data.head? = some '\n' := by
    rw [String.data_append]; rfl
  rw [h] at h2
  exact absurd h2 (by decide)

/-- `cWait` returns the first snapshot of the trace satisfying the exit
condition of the busy-wait loop. -/
lemma cWait_eq_some (tag : Nat) (trace : List (List String)) (q : List String)
    (h : cWait tag trace = some q) :
    ∃ k, trace.get? k = some q ∧ cWaitExit tag q = true ∧
      ∀ j qj, j < k → trace.get? j = some qj → cWaitExit tag qj = false := by
  induction trace with
  | nil => simp [cWait] at h
  | cons q0 qs ih =>
    rw [cWait] at h
    by_cases hx : cWaitExit tag q0
    · rw [if_pos hx] at h
      injection h with h
      subst h
      exact ⟨0, rfl, hx, fun j qj hj _ => absurd hj (Nat.not_lt_zero j)⟩
    · rw [if_neg hx] at h
      obtain ⟨k, hk, hq, hearlier⟩ := ih h
      refine ⟨k + 1, by simpa using hk, hq, ?_⟩
      intro j qj hj hjq
      cases j with
      | zero =>
          have hq0 : qj = q0 := by
            have := hjq
            simp [List.get?] at this
            exact this.symm
          rw [hq0]
          simpa using hx
      | succ j' =>
          exact hearlier j' qj (by omega) (by simpa using hjq)

/-- If `findCaret` finds an index, that index lies in the scan window and
its line matches the caret pattern. -/
lemma findCaret_some (q : List String) (start stop i : Nat)
    (h : findCaret q start stop = some i) :
    start ≤ i ∧ i < stop ∧ caretMatch (q.getD i "") = true := by
  unfold findCaret at h
  have h1 := List.find?_some h
  have h2 := List.mem_of_find?_eq_some h
  rw [List.mem_range'_1] at h2
  exact ⟨h2.1, by omega, h1⟩

/-- `findCaret` returns `none` exactly when no line of the scan window
matches the caret pattern. -/
lemma findCaret_none_iff (q : List String) (start stop : Nat) :
    findCaret q start stop = none ↔
      ∀ i, start ≤ i → i < stop → caretMatch (q.getD i "") = false := by
  unfold findCaret
  rw [List.find?_eq_none]
  constructor
  · intro h i h1 h2
    have := h i (by rw [List.mem_range'_1]; omega)
    simpa using this
  · intro h i hi
    rw [List.mem_range'_1] at hi
    simpa using h i hi.1 (by omega)

/-- The caret branch of `a_core`: when the scan finds a caret at index `i`,
the call raises with the Python-sliced message and leaves both queues
flushed. -/
lemma a_core_caret (start : Nat) (s : Session) (command : String) (tag : Nat)
    (newOut newErr : List String) (flag : Bool) (i : Nat)
    (h : findCaret (s.qErr ++ newErr) start (s.qErr ++ newErr).length = some i) :
    a_core start s command tag newOut newErr flag =
      (AResult.err ("\n" ++ String.join
          ((pySliceFrom (s.qErr ++ newErr) ((i : Int) - 1)).filter pyNotBlank)),
       ⟨[], [], 0, s.stdinLog ++ [cPayload command tag],
        s.stdinFlushes + 1, s.alive⟩) := by
  unfold a_core c_send
  dsimp only
  rw [h]
  simp [r, flush_all, flush_queue]

/-- The no-caret branch of `a_core` when the answer is read from the stderr
queue (the default `stderr=True`). -/
lemma a_core_nocaret_stderr (start : Nat) (s : Session) (command : String)
    (tag : Nat) (newOut newErr : List String)
    (h : findCaret (s.qErr ++ newErr) start (s.qErr ++ newErr).length = none) :
    a_core start s command tag newOut newErr true =
      (if (s.qErr ++ newErr).length = 0 then
        (AResult.err "Empty Response",
         ⟨s.qOut ++ newOut, [], 0, s.stdinLog ++ [cPayload command tag],
          s.stdinFlushes + 1, s.alive⟩)
       else
        (AResult.ok ((s.qErr ++ newErr).filter (fun l => !(sentinelFilterMatch l))),
         ⟨s.qOut ++ newOut, [], 0, s.stdinLog ++ [cPayload command tag],
          s.stdinFlushes + 1, s.alive⟩)) := by
  unfold a_core c_send
  dsimp only
  rw [h]
  simp [r]

/-- The no-caret branch of `a_core` when the answer is read from the stdout
queue (`stderr=False`). -/
lemma a_core_nocaret_stdout (start : Nat) (s : Session) (command : String)
    (tag : Nat) (newOut newErr : List String)
    (h : findCaret (s.qErr ++ newErr) start (s.qErr ++ newErr).length = none) :
    a_core start s command tag newOut newErr false =
      (if (s.qOut ++ newOut).length = 0 then
        (AResult.err "Empty Response",
         ⟨[], s.qErr ++ newErr, 0, s.stdinLog ++ [cPayload command tag],
          s.stdinFlushes + 1, s.alive⟩)
       else
        (AResult.ok ((s.qOut ++ newOut).filter (fun l => !(sentinelFilterMatch l))),
         ⟨[], s.qErr ++ newErr, 0, s.stdinLog ++ [cPayload command tag],
          s.stdinFlushes + 1, s.alive⟩)) := by
  unfold a_core c_send
  dsimp only
  rw [h]
  simp [r]

/-- `a_core` raises an error other than `"Empty Response"` exactly when the
scan window (from `start` to the post-send stderr length) holds a caret
line. -/
lemma a_core_engineError_iff (start : Nat) (s : Session) (command : String)
    (tag : Nat) (newOut newErr : List String) (flag : Bool) :
    (∃ m, (a_core start s command tag newOut newErr flag).1 = AResult.err m
        ∧ m ≠ "Empty Response")
    ↔ ∃ i, start ≤ i ∧ i < (s.qErr ++ newErr).length
        ∧ caretMatch ((s.qErr ++ newErr).getD i "") = true := by
  constructor
  · rintro ⟨m, hm, hne⟩
    cases hfc : findCaret (s.qErr ++ newErr) start (s.qErr ++ newErr).length with
    | some i =>
        obtain ⟨h1, h2, h3⟩ := findCaret_some _ _ _ _ hfc
        exact ⟨i, h1, h2, h3⟩
    | none =>
        exfalso
        cases flag
        · rw [a_core_nocaret_stdout start s command tag newOut newErr hfc] at hm
          by_cases hlen : (s.qOut ++ newOut).length = 0
          · rw [if_pos hlen] at hm
            exact hne (by injection hm.symm)
          · rw [if_neg hlen] at hm
            exact absurd hm (by simp)
        · rw [a_core_nocaret_stderr start s command tag newOut newErr hfc] at hm
          by_cases hlen : (s.qErr ++ newErr).length = 0
          · rw [if_pos hlen] at hm
            exact hne (by injection hm.symm)
          · rw [if_neg hlen] at hm
            exact absurd hm (by simp)
  · rintro ⟨i, h1, h2, h3⟩
    cases hfc : findCaret (s.qErr ++ newErr) start (s.qErr ++ newErr).length with
    | some j =>
        rw [a_core_caret start s command tag newOut newErr flag j hfc]
        exact ⟨_, rfl, newline_append_ne_emptyResponse _⟩
    | none =>
        rw [findCaret_none_iff] at hfc
        rw [hfc i h1 h2] at h3
        exact absurd h3 (by simp)

/-- `enqueue_loop` on a stream without EOF markers appends the whole stream
to the queue, in order and verbatim. -/
lemma enqueue_loop_eq (stream : List String) (h : "" ∉ stream) :
    ∀ q, enqueue_loop stream q = q ++ stream := by
  induction stream with
  | nil => intro q; simp [enqueue_loop]
  | cons line rest ih =>
      intro q
      rw [enqueue_loop]
      rw [List.mem_cons, not_or] at h
      rw [if_neg (fun hl => h.1 hl.symm)]
      rw [ih h.2]
      simp

/-- Python slicing with a nonnegative start: `xs[i-1:]` for `i ≥ 1`. -/
lemma pySliceFrom_coe_sub_one (xs : List String) (i : Nat) (hi : 0 < i) :
    pySliceFrom xs ((i : Int) - 1) = xs.drop (i - 1) := by
  unfold pySliceFrom
  rw [if_neg (by omega)]
  congr 1
  omega

/-- Python slicing `xs[-1:]`: only the last element survives. -/
lemma pySliceFrom_neg_one (xs : List String) :
    pySliceFrom xs (-1) = xs.drop (xs.length - 1) := by
  unfold pySliceFrom
  rw [if_pos (by omega)]
  congr 1
  omega

/-! ### Claim theorems -/

/-- C1: a framed send with `block=true` (`gp.c`) first writes to the
child's stdin — in order: the command text, a newline, the
print-redirection instruction, and a print instruction emitting the
sentinel marker for the freshly generated tag — and flushes the write
buffer; it returns only when the most recently queued line of the stdout
queue equals the sentinel line for that tag, and at no earlier point of the
observed trace did the queue tail equal it. -/
theorem c_block_returns_only_after_sentinel
    (s : Session) (commands : String) (tag : Nat)
    (trace : List (List String)) (s' : Session)
    (h : c_block s commands tag trace = some s') :
    s'.stdinLog = s.stdinLog ++
      [commands ++ "\n" ++ "set print \"-\"\n"
        ++ "print \"" ++ sentinel tag ++ "\"\n"]
    ∧ s'.stdinFlushes = s.stdinFlushes + 1
    ∧ s'.qOut ≠ []
    ∧ s'.qOut.getLast? = some (sentinelLine tag)
    ∧ ∃ k, trace.get? k = some s'.qOut
        ∧ ∀ j qj, j < k → trace.get? j = some qj →
            (qj = [] ∨ qj.getLast? ≠ some (sentinelLine tag)) := by
  unfold c_block c_send at h
  dsimp only at h
  cases hcw : cWait tag trace with
  | none => rw [hcw] at h; exact absurd h (by simp)
  | some q =>
      rw [hcw] at h
      injection h with h
      subst h
      obtain ⟨k, hk, hexit, hearlier⟩ := cWait_eq_some tag trace q hcw
      simp only [cWaitExit, Bool.and_eq_true, Bool.not_eq_eq_eq_not,
        Bool.not_true, decide_eq_true_eq, beq_eq_false_iff_ne] at hexit
      refine ⟨rfl, rfl, ?_, hexit.2, k, hk, ?_⟩
      · intro hnil
        have hq : q = [] := hnil
        exact hexit.1 (by rw [hq]; rfl)
      · intro j qj hj hjq
        have hF := hearlier j qj hj hjq
        by_contra hcon
        push_neg at hcon
        obtain ⟨hne, hlast⟩ := hcon
        have hT : cWaitExit tag qj = true := by
          unfold cWaitExit
          rw [hlast]
          simp [hne, List.length_eq_zero]
        rw [hF] at hT
        exact Bool.false_ne_true hT

/-- C1 witness: a concrete trace whose second snapshot ends with the
sentinel line for tag 42. -/
theorem c_block_returns_only_after_sentinel_witness :
    (⟨["COMMAND_SEQUENCE_ENDED-42\n"], [], 0,
      ["plot sin(x)\nset print \"-\"\nprint \"COMMAND_SEQUENCE_ENDED-42\"\n"],
      1, true⟩ : Session).qOut.getLast? = some (sentinelLine 42) := by
  have h := c_block_returns_only_after_sentinel
    ⟨[], [], 0, [], 0, true⟩ "plot sin(x)" 42
    [[], ["COMMAND_SEQUENCE_ENDED-42\n"]]
    ⟨["COMMAND_SEQUENCE_ENDED-42\n"], [], 0,
      ["plot sin(x)\nset print \"-\"\nprint \"COMMAND_SEQUENCE_ENDED-42\"\n"],
      1, true⟩ (by decide)
  exact h.2.2.2.1

/-- C5 (code bug): `gp.quit` evaluates `self.a('exit', block=False)`, but
`a` has no parameter named `block` (line 153), so every call raises
`TypeError` at the call site, before the exit command is written and before
`self.p.kill()` runs: the session is returned unchanged. -/
theorem quit_always_raises_typeError (s : Session) (tag : Nat)
    (newOut newErr : List String) :
    quit s tag newOut newErr = (QuitResult.typeError "block", s) := rfl

/-- C8 (amended): the Line Reader pushes every `readline` result onto its
queue verbatim — terminator included, not stripped — in arrival order until
end-of-stream, and closes the stream handle when the loop exits. -/
theorem enqueue_std_pushes_lines_in_order (stream queue : List String)
    (h : "" ∉ stream) :
    enqueue_std stream queue = (queue ++ stream, true) := by
  unfold enqueue_std
  rw [enqueue_loop_eq stream h queue]

/-- C8 witness: two lines arrive in order, unmodified, and the handle is
closed. -/
theorem enqueue_std_pushes_lines_in_order_witness :
    enqueue_std ["a\n", "b\n"] ["z\n"] = (["z\n", "a\n", "b\n"], true) := by
  have h := enqueue_std_pushes_lines_in_order ["a\n", "b\n"] ["z\n"] (by decide)
  exact h.trans (by decide)

/-- C8 counterexample: the claim says lines are pushed stripped of the line
terminator; the code pushes them verbatim, so a stream line `"foo\n"` is
queued as `"foo\n"`, not as the stripped `"foo"` the spec variant
produces. -/
theorem enqueue_std_keeps_terminator_cex :
    enqueue_std ["foo\n"] [] = (["foo\n"], true)
    ∧ enqueue_std_spec ["foo\n"] [] = (["foo"], true)
    ∧ (["foo\n"] : List String) ≠ ["foo"] := by decide

/-- C10: after `flush_all` both queues are empty, so an immediately
following read or flush (with no new lines produced in between) drains an
empty sequence and leaves the state unchanged — flushing is idempotent. -/
theorem flush_all_is_idempotent (s : Session) (flag : Bool) :
    (r (flush_all s) flag).1 = []
    ∧ flush_queue (flush_all s) flag = flush_all s
    ∧ flush_all (flush_all s) = flush_all s := by
  cases flag <;> exact ⟨rfl, rfl, rfl⟩

/-- C9: every call to `gp.r` resets `outIndex` to 0 no matter which queue
it drains, as do `flush_queue` and `flush_all` (which call it); hence an
ask performed right after any `r` scans the stderr queue from index 0: its
engine-error outcome is decided by the caret lines anywhere below the new
stderr length. -/
theorem r_always_resets_outIndex (s : Session) (flag : Bool) :
    (r s flag).2.outIndex = 0
    ∧ (flush_queue s flag).outIndex = 0
    ∧ (flush_all s).outIndex = 0
    ∧ (∀ command tag newOut newErr flag2,
        (∃ m, (a ((r s flag).2) command tag newOut newErr flag2).1
            = AResult.err m ∧ m ≠ "Empty Response")
        ↔ ∃ i, i < (((r s flag).2).qErr ++ newErr).length
            ∧ caretMatch ((((r s flag).2).qErr ++ newErr).getD i "") = true) := by
  have h0 : ((r s flag).2).outIndex = 0 := by cases flag <;> rfl
  refine ⟨h0, by cases flag <;> rfl, rfl, ?_⟩
  intro command tag newOut newErr flag2
  have ha : a ((r s flag).2) command tag newOut newErr flag2
      = a_core 0 ((r s flag).2) command tag newOut newErr flag2 := by
    unfold a
    rw [h0]
  rw [ha]
  have h := a_core_engineError_iff 0 ((r s flag).2) command tag newOut newErr flag2
  simpa [Nat.zero_le] using h

/-- C9 witness: after an `r` on the stdout queue of a session whose cursor
was 5, a subsequent ask sees the caret line still at stderr index 0 and
raises an engine error. -/
theorem r_always_resets_outIndex_witness :
    ∃ m, (a ⟨[], ["  ^\n"], 0, [], 0, true⟩ "print pi" 1
        [sentinelLine 1] [] true).1 = AResult.err m ∧ m ≠ "Empty Response" := by
  have h := r_always_resets_outIndex ⟨["x\n"], ["  ^\n"], 5, [], 0, true⟩ false
  exact (h.2.2.2 "print pi" 1 [sentinelLine 1] [] true).mpr
    ⟨0, by decide, by decide⟩

/-- C2 counterexample: with the default `stderr=True`, an ask whose scan
window holds no caret returns the drain of the **stderr** queue, not the
stdout queue: here stdout holds the answer `"2\n"` plus the sentinel, yet
the returned value is the stderr content `"noise\n"`. -/
theorem a_default_drains_stderr_not_stdout :
    (a ⟨[], [], 0, [], 0, true⟩ "print 1+1" 5 ["2\n", sentinelLine 5]
        ["noise\n"] true).1 = AResult.ok ["noise\n"]
    ∧ (["2\n", sentinelLine 5].filter (fun l => !(sentinelFilterMatch l)))
        = ["2\n"]
    ∧ AResult.ok ["noise\n"] ≠ AResult.ok ["2\n"] := by decide

/-- C2 (amended): when no caret is found and the selected drain is
nonempty, `a` returns the drain of the queue selected by its `stderr`
flag — the stderr queue when `stderr=True` (the default), the stdout queue
when `stderr=False` — with every sentinel marker line excluded. -/
theorem a_success_returns_selected_queue_drain
    (s : Session) (command : String) (tag : Nat)
    (newOut newErr : List String) (flag : Bool)
    (hscan : findCaret (s.qErr ++ newErr) s.outIndex
        (s.qErr ++ newErr).length = none)
    (hne : (if flag then s.qErr ++ newErr else s.qOut ++ newOut) ≠ []) :
    (a s command tag newOut newErr flag).1 =
      AResult.ok ((if flag then s.qErr ++ newErr else s.qOut ++ newOut).filter
        (fun l => !(sentinelFilterMatch l))) := by
  unfold a
  cases flag
  · have hne' : (s.qOut ++ newOut) ≠ [] := by simpa using hne
    rw [a_core_nocaret_stdout s.outIndex s command tag newOut newErr hscan]
    rw [if_neg (by simpa [List.length_eq_zero] using hne')]
    rfl
  · have hne' : (s.qErr ++ newErr) ≠ [] := by simpa using hne
    rw [a_core_nocaret_stderr s.outIndex s command tag newOut newErr hscan]
    rw [if_neg (by simpa [List.length_eq_zero] using hne')]
    rfl

/-- C2 witness: with `stderr=False`, the answer `"2\n"` is returned and the
sentinel line is excluded. -/
theorem a_success_returns_selected_queue_drain_witness :
    (a ⟨[], [], 0, [], 0, true⟩ "print 1+1" 5 ["2\n", sentinelLine 5]
        [] false).1 = AResult.ok ["2\n"] := by
  have h := a_success_returns_selected_queue_drain ⟨[], [], 0, [], 0, true⟩
    "print 1+1" 5 ["2\n", sentinelLine 5] [] false (by decide) (by decide)
  exact h.trans (by decide)

/-- C3 counterexample: when the caret line is the very first stderr queue
entry (match at index 0), the raised message is built from the Python
negative slice (only the last drained line, here `"bad\n"`) and is prefixed
with a newline — not the concatenation from the line preceding the caret
line (the spec formula gives the whole window from index `max(0-1,0) = 0`). -/
theorem a_caret_at_zero_message_cex :
    (a ⟨[], [], 0, [], 0, true⟩ "boom" 2 [sentinelLine 2]
        ["^\n", "bad\n"] true).1 = AResult.err "\nbad\n"
    ∧ specErrMsg ["^\n", "bad\n"] 0 = "^\nbad\n"
    ∧ ("\nbad\n" : String) ≠ "^\nbad\n"
    ∧ ("\nbad\n" : String) ≠ "\n" ++ specErrMsg ["^\n", "bad\n"] 0 := by decide

/-- C3 (amended): during `a`, an error other than Empty Response is raised
exactly when some line of the scan window matches the caret pattern; on the
first match at queue index `i`, the message is a newline followed by the
drained stderr lines from Python slice `i-1` onward (from `i-1` when
`i ≥ 1`, only the last line when `i = 0`) with lines `""` and `"\n"`
removed, and both queues are flushed before raising. -/
theorem a_engine_error_behavior (s : Session) (command : String) (tag : Nat)
    (newOut newErr : List String) (flag : Bool) :
    (∀ i, findCaret (s.qErr ++ newErr) s.outIndex
        (s.qErr ++ newErr).length = some i →
      a s command tag newOut newErr flag =
        (AResult.err ("\n" ++ String.join
            ((pySliceFrom (s.qErr ++ newErr) ((i : Int) - 1)).filter pyNotBlank)),
         ⟨[], [], 0, s.stdinLog ++ [cPayload command tag],
          s.stdinFlushes + 1, s.alive⟩))
    ∧ (findCaret (s.qErr ++ newErr) s.outIndex
        (s.qErr ++ newErr).length = none →
      ∀ m, (a s command tag newOut newErr flag).1 = AResult.err m →
        m = "Empty Response") := by
  constructor
  · intro i h
    unfold a
    exact a_core_caret s.outIndex s command tag newOut newErr flag i h
  · intro h m hm
    unfold a at hm
    cases flag
    · rw [a_core_nocaret_stdout s.outIndex s command tag newOut newErr h] at hm
      by_cases hlen : (s.qOut ++ newOut).length = 0
      · rw [if_pos hlen] at hm
        injection hm.symm
      · rw [if_neg hlen] at hm
        exact absurd hm (by simp)
    · rw [a_core_nocaret_stderr s.outIndex s command tag newOut newErr h] at hm
      by_cases hlen : (s.qErr ++ newErr).length = 0
      · rw [if_pos hlen] at hm
        injection hm.symm
      · rw [if_neg hlen] at hm
        exact absurd hm (by simp)

/-- C3 witness: a caret at index 1; the message is the echoed command, the
caret line and the diagnostic, joined, and the final queues are empty. -/
theorem a_engine_error_behavior_witness :
    a ⟨[], [], 0, [], 0, true⟩ "print pi" 9 [sentinelLine 9]
        ["echo\n", " ^\n", "msg\n"] true
      = (AResult.err "\necho\n ^\nmsg\n",
         ⟨[], [], 0, [cPayload "print pi" 9], 1, true⟩) := by
  have h := (a_engine_error_behavior ⟨[], [], 0, [], 0, true⟩ "print pi" 9
    [sentinelLine 9] ["echo\n", " ^\n", "msg\n"] true).1 1 (by decide)
  exact h.trans (by decide)

/-- C4 counterexample: the emptiness check of `a` runs on the raw drain,
before sentinel lines are excluded — a drain holding only the sentinel line
returns a normal empty list instead of raising Empty Response, although the
response excluding the sentinel is empty. -/
theorem a_sentinel_only_response_returns_empty_list :
    (a ⟨[], [], 0, [], 0, true⟩ "set key" 7 [sentinelLine 7] [] false).1
      = AResult.ok []
    ∧ ([sentinelLine 7].filter (fun l => !(sentinelFilterMatch l))) = [] := by
  decide

/-- C4 (amended): with no caret detected, `a` raises the
`"Empty Response"` failure (same exception class as an engine error,
distinguished only by its message) exactly when the raw drained response —
before sentinel-line exclusion — is empty; any nonempty raw drain returns
normally. -/
theorem a_empty_response_iff_raw_drain_empty
    (s : Session) (command : String) (tag : Nat)
    (newOut newErr : List String) (flag : Bool)
    (hscan : findCaret (s.qErr ++ newErr) s.outIndex
        (s.qErr ++ newErr).length = none) :
    ((if flag then s.qErr ++ newErr else s.qOut ++ newOut) = [] →
      (a s command tag newOut newErr flag).1 = AResult.err "Empty Response")
    ∧ ((if flag then s.qErr ++ newErr else s.qOut ++ newOut) ≠ [] →
      ∃ ls, (a s command tag newOut newErr flag).1 = AResult.ok ls) := by
  unfold a
  cases flag
  · constructor
    · intro hemp
      have hemp' : s.qOut ++ newOut = [] := by simpa using hemp
      rw [a_core_nocaret_stdout s.outIndex s command tag newOut newErr hscan]
      rw [if_pos (by simp [hemp'])]
    · intro hne
      have hne' : s.qOut ++ newOut ≠ [] := by simpa using hne
      rw [a_core_nocaret_stdout s.outIndex s command tag newOut newErr hscan]
      rw [if_neg (by simpa [List.length_eq_zero] using hne')]
      exact ⟨_, rfl⟩
  · constructor
    · intro hemp
      have hemp' : s.qErr ++ newErr = [] := by simpa using hemp
      rw [a_core_nocaret_stderr s.outIndex s command tag newOut newErr hscan]
      rw [if_pos (by simp [hemp'])]
    · intro hne
      have hne' : s.qErr ++ newErr ≠ [] := by simpa using hne
      rw [a_core_nocaret_stderr s.outIndex s command tag newOut newErr hscan]
      rw [if_neg (by simpa [List.length_eq_zero] using hne')]
      exact ⟨_, rfl⟩

/-- C4 witness: an ask that drains nothing raises Empty Response. -/
theorem a_empty_response_iff_raw_drain_empty_witness :
    (a ⟨[], [], 0, [], 0, true⟩ "replot" 4 [] [] true).1
      = AResult.err "Empty Response" := by
  have h := a_empty_response_iff_raw_drain_empty ⟨[], [], 0, [], 0, true⟩
    "replot" 4 [] [] true (by decide)
  exact h.1 (by decide)

/-- C6 counterexample: the window start recorded by `a` is the `outIndex`
cursor, not the stderr queue length at entry: with `outIndex = 0` and one
pre-existing caret line in the stderr queue, the code scans it and raises,
while the spec-following variant (window start = current stderr length)
would skip it and return normally. -/
theorem a_window_start_is_not_stderr_length_cex :
    (a ⟨[], ["  ^\n"], 0, [], 0, true⟩ "print pi" 1 [sentinelLine 1]
        [] true).1 = AResult.err "\n  ^\n"
    ∧ (a_specStart ⟨[], ["  ^\n"], 0, [], 0, true⟩ "print pi" 1
        [sentinelLine 1] [] true).1 = AResult.ok ["  ^\n"]
    ∧ AResult.err "\n  ^\n" ≠ AResult.ok ["  ^\n"] := by decide

/-- C6 (amended): the error-scan window of `a` starts at the `outIndex`
cursor read at entry (`startIndex = self.outIndex`) and ends at the
post-send stderr queue length: an engine error is raised exactly when a
caret line sits at an index at or after `outIndex` in the stderr queue. -/
theorem a_scan_window_starts_at_outIndex (s : Session) (command : String)
    (tag : Nat) (newOut newErr : List String) (flag : Bool) :
    (∃ m, (a s command tag newOut newErr flag).1 = AResult.err m
        ∧ m ≠ "Empty Response")
    ↔ ∃ i, s.outIndex ≤ i ∧ i < (s.qErr ++ newErr).length
        ∧ caretMatch ((s.qErr ++ newErr).getD i "") = true := by
  unfold a
  exact a_core_engineError_iff s.outIndex s command tag newOut newErr flag

/-- C6 witness: a caret line below `outIndex = 0` is scanned and raises. -/
theorem a_scan_window_starts_at_outIndex_witness :
    ∃ i, (0 : Nat) ≤ i
      ∧ i < ((["pre\n"] : List String) ++ ["  ^\n"]).length
      ∧ caretMatch (((["pre\n"] : List String) ++ ["  ^\n"]).getD i "")
          = true := by
  have h := a_scan_window_starts_at_outIndex ⟨[], ["pre\n"], 0, [], 0, true⟩
    "show version" 2 [sentinelLine 2] ["  ^\n"] true
  exact h.mp ⟨"\npre\n  ^\n", by decide, by decide⟩

/-- C7 counterexample: a caret match at window position 0 makes the code
slice `errorLines[0-1:]`, a Python negative slice selecting only the last
drained line (`"more\n"`), not the whole drained window from index
`max(0-1, 0) = 0` that the claim describes. -/
theorem a_caret_slice_negative_index_cex :
    (a ⟨[], [], 0, [], 0, true⟩ "bad" 3 [sentinelLine 3]
        ["\t^\n", "oops\n", "more\n"] true).1 = AResult.err "\nmore\n"
    ∧ pySliceFrom ["\t^\n", "oops\n", "more\n"] ((0 : Int) - 1) = ["more\n"]
    ∧ specErrMsg ["\t^\n", "oops\n", "more\n"] 0 = "\t^\noops\nmore\n"
    ∧ ("\nmore\n" : String)
        ≠ "\n" ++ specErrMsg ["\t^\n", "oops\n", "more\n"] 0 := by decide

/-- C7 (amended): when the caret is found at position `i ≥ 1`, the message
slice starts at `i - 1` (the echoed offending command); when `i = 0`, the
Python slice `[-1:]` keeps only the last drained line — never a clamped
start at 0. -/
theorem a_error_slice_start (s : Session) (command : String) (tag : Nat)
    (newOut newErr : List String) (flag : Bool) (i : Nat)
    (h : findCaret (s.qErr ++ newErr) s.outIndex
        (s.qErr ++ newErr).length = some i) :
    (0 < i →
      (a s command tag newOut newErr flag).1 =
        AResult.err ("\n" ++ String.join
          (((s.qErr ++ newErr).drop (i - 1)).filter pyNotBlank)))
    ∧ (i = 0 →
      (a s command tag newOut newErr flag).1 =
        AResult.err ("\n" ++ String.join
          (((s.qErr ++ newErr).drop ((s.qErr ++ newErr).length - 1)).filter
            pyNotBlank))) := by
  have hc := a_core_caret s.outIndex s command tag newOut newErr flag i h
  constructor
  · intro hi
    unfold a
    rw [hc, pySliceFrom_coe_sub_one (s.qErr ++ newErr) i hi]
  · intro hi
    subst hi
    unfold a
    rw [hc, show ((0 : Nat) : Int) - 1 = -1 by decide, pySliceFrom_neg_one]

/-- C7 witness: a caret at position 1 yields the message built from the
window starting at position 0, the echoed command. -/
theorem a_error_slice_start_witness :
    (a ⟨[], [], 0, [], 0, true⟩ "fit f(x)" 6 [sentinelLine 6]
        ["cmd\n", "^\n", "info\n"] true).1 = AResult.err "\ncmd\n^\ninfo\n" := by
  have h := a_error_slice_start ⟨[], [], 0, [], 0, true⟩ "fit f(x)" 6
    [sentinelLine 6] ["cmd\n", "^\n", "info\n"] true 1 (by decide)
  exact (h.1 (by decide)).trans (by decide)

end PyGnuplot
